import Mathlib

/-!
Shallow embedding of the form-to-table pipeline of `src/src/App.tsx`
(a React single-page app: a Zod-validated registration form appending
accepted records to an in-memory table).

Conventions of the embedding:
* JS `Date` values are modelled as integer millisecond timestamps
  (`Int` for arbitrary dates such as `birthDate`; `Nat` for the
  non-negative `Date.now()` clock readings).
* `undefined` raw form values are `Option.none`.
* The Zod schema `formSchema` (App.tsx lines 42-56) is embedded as one
  validator per field plus an aggregating `validate`.
* React state (`tableData` via `useState`, the react-hook-form state)
  is an explicit `AppState` record threaded through the handlers.
-/

namespace ShadcnApp

/-- Raw, unvalidated form values as held by the form state
(react-hook-form): each field may be unset (`none` ≈ `undefined`). -/
structure FormValues where
  name : Option String
  email : Option String
  birthDate : Option Int
  department : Option String
  isActive : Option Bool
deriving DecidableEq, Repr

/-- Source `type FormData = z.infer<typeof formSchema>` (App.tsx line 60):
the validated field values. -/
structure FormData where
  name : String
  email : String
  birthDate : Int
  department : String
  isActive : Bool
deriving DecidableEq, Repr

/-- Source `interface TableData extends FormData` with `id` and `createdAt`
(App.tsx lines 63-66). -/
structure TableData extends FormData where
  id : String
  createdAt : String
deriving DecidableEq, Repr

/-! Zod's default email pattern, used by `z.string().email()`:
the regex
`^(?!\.)(?!.*\.\.)([A-Za-z0-9_'+\-\.]*)[A-Za-z0-9_+-]@([A-Za-z0-9][A-Za-z0-9\-]*\.)+[A-Za-z]{2,}$`
decomposed into executable checks on the character list. -/

/-- Characters allowed in the local part: `[A-Za-z0-9_'+\-\.]`
(39 is the apostrophe). -/
def isLocalChar (c : Char) : Bool :=
  c.isAlpha || c.isDigit || c = '_' || c = Char.ofNat 39 || c = '+' || c = '-' || c = '.'

/-- The character right before the `@`: `[A-Za-z0-9_+-]`
(no dot, no apostrophe). -/
def isLocalEndChar (c : Char) : Bool :=
  c.isAlpha || c.isDigit || c = '_' || c = '+' || c = '-'

/-- Characters allowed after the first character of a domain label:
`[A-Za-z0-9\-]`. -/
def isLabelChar (c : Char) : Bool :=
  c.isAlpha || c.isDigit || c = '-'

/-- The lookahead `(?!.*\.\.)`: the string contains two consecutive dots. -/
def hasDoubleDot : List Char → Bool
  | a :: b :: rest => (a = '.' && b = '.') || hasDoubleDot (b :: rest)
  | _ => false

/-- Local part `([A-Za-z0-9_'+\-\.]*)[A-Za-z0-9_+-]`: nonempty, every
character from the local class, and the last character from the
restricted end class. -/
def checkLocal (l : List Char) : Bool :=
  match l.getLast? with
  | none => false
  | some c => isLocalEndChar c && l.all isLocalChar

/-- A domain label `[A-Za-z0-9][A-Za-z0-9\-]*`. -/
def checkLabel (l : List Char) : Bool :=
  match l with
  | [] => false
  | c :: rest => (c.isAlpha || c.isDigit) && rest.all isLabelChar

/-- The final domain component `[A-Za-z]{2,}`. -/
def checkTld (l : List Char) : Bool :=
  decide (2 ≤ l.length) && l.all Char.isAlpha

/-- Domain `([A-Za-z0-9][A-Za-z0-9\-]*\.)+[A-Za-z]{2,}`: splitting on
dots, at least two components, all but the last are labels and the
last is the letters-only tail. -/
def checkDomain (d : List Char) : Bool :=
  match (d.splitOn '.').reverse with
  | tld :: l :: ls => checkTld tld && (l :: ls).all checkLabel
  | _ => false

/-- Check for `z.string().email()`: exactly one `@`; no leading dot and no `..`
anywhere (the regex lookaheads); valid local part and domain. -/
def isValidEmail (s : String) : Bool :=
  match s.data.splitOn '@' with
  | [lp, dp] =>
    !hasDoubleDot s.data &&
    (match lp with
     | c :: _ => !(c = '.')
     | [] => false) &&
    checkLocal lp && checkDomain dp
  | _ => false

/-! Per-field validators from `formSchema` (App.tsx lines 42-56). -/

/-- Field `name: z.string().min(2, ...)` with message "Name must be at least 2 characters.":
a missing string fails the type check with Zod's stock message, a
present one must have length at least 2. -/
def validateName : Option String → Option String
  | none => some "Required"
  | some s => if s.length < 2 then some "Name must be at least 2 characters." else none

/-- Field `email: z.string().email(...)` with message "Please enter a valid email address.". -/
def validateEmail : Option String → Option String
  | none => some "Required"
  | some s => if isValidEmail s then none else some "Please enter a valid email address."

/-- Field `birthDate: z.date(...)` with required_error "A birth date is required.":
any well-formed date passes; only absence fails. -/
def validateBirthDate : Option Int → Option String
  | none => some "A birth date is required."
  | some _ => none

/-- Field `department: z.string(...)` with required_error "Please select a department.":
any string passes; only absence fails. The schema does not restrict
the value to the options offered by the UI. -/
def validateDepartment : Option String → Option String
  | none => some "Please select a department."
  | some _ => none

/-- The per-field error mapping produced by a validation pass (the
`isActive` field is `z.boolean().default(false)` and never fails on a
boolean-or-absent raw value, so it has no error slot). -/
structure FieldErrors where
  name : Option String := none
  email : Option String := none
  birthDate : Option String := none
  department : Option String := none
deriving DecidableEq, Repr

/-- The empty error mapping. -/
def noErrors : FieldErrors := {}

/-- All four field checks, run independently and aggregated — Zod's
object parser evaluates every property and collects all issues. -/
def fieldErrors (v : FormValues) : FieldErrors :=
  { name := validateName v.name
    email := validateEmail v.email
    birthDate := validateBirthDate v.birthDate
    department := validateDepartment v.department }

/-- Whether any field check failed. -/
def hasErrors (e : FieldErrors) : Bool :=
  e.name.isSome || e.email.isSome || e.birthDate.isSome || e.department.isSome

/-- Outcome of a validation pass: the parsed `FormData` or the error
mapping. -/
inductive ValidationResult where
  | valid : FormData → ValidationResult
  | invalid : FieldErrors → ValidationResult
deriving DecidableEq, Repr

/-- The parsed output of a successful validation pass: the raw values
themselves, with `isActive` defaulted to `false` when absent per
`z.boolean().default(false)`. In the success branch of `validate`
every other `Option` is provably `some`, so those `getD` defaults
never fire. -/
def parsedData (v : FormValues) : FormData :=
  { name := v.name.getD ""
    email := v.email.getD ""
    birthDate := v.birthDate.getD 0
    department := v.department.getD ""
    isActive := v.isActive.getD false }

/-- Resolver `zodResolver(formSchema)` applied to the raw values: if any field
check fails the aggregated error mapping is returned, otherwise the
parsed data. -/
def validate (v : FormValues) : ValidationResult :=
  if hasErrors (fieldErrors v) then .invalid (fieldErrors v)
  else .valid (parsedData v)

/-- The option set offered by the department `SelectContent`
(App.tsx lines 228-234). -/
def departmentOptions : List String :=
  ["engineering", "marketing", "sales", "hr", "finance"]

/-- Timestamp of `new Date("1900-01-01")` in ms since the Unix epoch. -/
def date1900 : Int := -2208988800000

/-- The `disabled` predicate of the birth-date `Calendar`
(App.tsx lines 199-201): `date > new Date() || date < new Date("1900-01-01")`. -/
def calendarDisabled (now : Nat) (d : Int) : Bool :=
  decide ((now : Int) < d) || decide (d < date1900)

/-! Model of `new Date(t).toISOString()` for a non-negative millisecond
timestamp `t`: proleptic-Gregorian civil date (the standard
days-to-civil conversion) plus time of day, rendered as
`YYYY-MM-DDTHH:mm:ss.mmmZ`. -/

/-- Zero-pad to two digits. -/
def pad2 (n : Nat) : String :=
  if n < 10 then "0" ++ toString n else toString n

/-- Zero-pad to three digits. -/
def pad3 (n : Nat) : String :=
  if n < 10 then "00" ++ toString n
  else if n < 100 then "0" ++ toString n
  else toString n

/-- Zero-pad to four digits. -/
def pad4 (n : Nat) : String :=
  if n < 10 then "000" ++ toString n
  else if n < 100 then "00" ++ toString n
  else if n < 1000 then "0" ++ toString n
  else toString n

/-- Civil `(year, month, day)` from days since the Unix epoch. -/
def civilFromDays (z0 : Nat) : Nat × Nat × Nat :=
  let z := z0 + 719468
  let era := z / 146097
  let doe := z % 146097
  let yoe := (doe - doe / 1460 + doe / 36524 - doe / 146096) / 365
  let y := yoe + era * 400
  let doy := doe - (365 * yoe + yoe / 4 - yoe / 100)
  let mp := (5 * doy + 2) / 153
  let d := doy - (153 * mp + 2) / 5 + 1
  let m := if mp < 10 then mp + 3 else mp - 9
  (if m ≤ 2 then y + 1 else y, m, d)

/-- Rendering of `new Date(t).toISOString()` for `t` milliseconds since the epoch. -/
def toISOString (t : Nat) : String :=
  let ms := t % 1000
  let totalSecs := t / 1000
  let secOfDay := totalSecs % 86400
  let days := totalSecs / 86400
  let ymd := civilFromDays days
  pad4 ymd.1 ++ "-" ++ pad2 ymd.2.1 ++ "-" ++ pad2 ymd.2.2 ++ "T" ++
  pad2 (secOfDay / 3600) ++ ":" ++ pad2 (secOfDay % 3600 / 60) ++ ":" ++
  pad2 (secOfDay % 60) ++ "." ++ pad3 ms ++ "Z"

/-! The application state and the submit pipeline (App.tsx lines 68-110). -/

/-- The `defaultValues` of `useForm` (App.tsx lines 77-81): only `name`,
`email` and `isActive` are declared; `birthDate` and `department` are
absent (`undefined`). -/
def defaultValues : FormValues :=
  { name := some ""
    email := some ""
    birthDate := none
    department := none
    isActive := some false }

/-- The session state: the `tableData` array (`useState`, line 71) and
the react-hook-form state (current values and per-field errors). -/
structure AppState where
  tableData : List TableData
  formValues : FormValues
  formErrors : FieldErrors
deriving DecidableEq, Repr

/-- Session start: empty table, form at the declared defaults. -/
def initialState : AppState :=
  { tableData := [], formValues := defaultValues, formErrors := noErrors }

/-- Source `Date.now().toString()` (App.tsx line 92) — the generated id. -/
def generateId (now : Nat) : String := toString now

/-- The `newEntry` construction (App.tsx lines 90-94): the validated
values spread into a `TableData` with generated `id` and `createdAt`. -/
def mkEntry (values : FormData) (now : Nat) : TableData :=
  { toFormData := values
    id := generateId now
    createdAt := toISOString now }

/-- Handler `onSubmit` (App.tsx lines 86-104): append the new entry
(`setTableData(prev => [...prev, newEntry])`), then `form.reset()`
(values back to the declared defaults, errors cleared). The
`console.log` and blocking `alert` have no state effect. -/
def onSubmit (s : AppState) (values : FormData) (now : Nat) : AppState :=
  { s with
    tableData := s.tableData ++ [mkEntry values now]
    formValues := defaultValues
    formErrors := noErrors }

/-- Wiring `form.handleSubmit(onSubmit, onError)` (App.tsx line 128): run the
resolver on the current values; on success call `onSubmit`, on failure
attach the error mapping to the form state (`onError` itself only
logs) and leave everything else untouched. -/
def handleSubmit (s : AppState) (now : Nat) : AppState :=
  match validate s.formValues with
  | .valid d => onSubmit s d now
  | .invalid e => { s with formErrors := e }

/-- One user interaction: edit the form to the given raw values, then
press submit at the given `Date.now()` reading. -/
def submitEvent (s : AppState) (ev : FormValues × Nat) : AppState :=
  handleSubmit { s with formValues := ev.1 } ev.2

/-- A session: a sequence of fill-and-submit interactions from the
initial state. -/
def runSession (events : List (FormValues × Nat)) : AppState :=
  events.foldl submitEvent initialState

/-- The ids of the records committed during a session. -/
def sessionIds (events : List (FormValues × Nat)) : List String :=
  (runSession events).tableData.map TableData.id

/-- The record (if any) committed by one fill-and-submit interaction. -/
def commitOf (ev : FormValues × Nat) : Option TableData :=
  match validate ev.1 with
  | .valid d => some (mkEntry d ev.2)
  | .invalid _ => none

/-! The checkbox wiring (App.tsx lines 252-255) and the table body
rendering (App.tsx lines 301-328). -/

/-- Radix checkbox `CheckedState`: `boolean | "indeterminate"`. -/
inductive CheckedState where
  | isBool : Bool → CheckedState
  | indeterminate : CheckedState
deriving DecidableEq, Repr

/-- The `isActive` checkbox is wired as `onCheckedChange={field.onChange}`
(App.tsx lines 252-255): the handler hands the emitted `CheckedState`
to the field store unchanged, so this function is what ends up stored
for a given emission. -/
def checkboxOnCheckedChange (emitted : CheckedState) : CheckedState :=
  emitted

/-- A rendered table body row: the placeholder with its explanatory
text, or a data row for one record. -/
inductive DisplayRow where
  | placeholderRow : String → DisplayRow
  | dataRow : TableData → DisplayRow
deriving DecidableEq, Repr

/-- The placeholder cell text (App.tsx lines 304-306). -/
def emptyTableMessage : String :=
  "No users registered yet. Fill out the form above to add users."

/-- The `TableBody` contents (App.tsx lines 301-328):
`tableData.length === 0` renders the single placeholder row, otherwise
`tableData.map(user => <TableRow .../>)`. Pure projection of the store. -/
def renderTableBody (tableData : List TableData) : List DisplayRow :=
  if tableData.length = 0 then [DisplayRow.placeholderRow emptyTableMessage]
  else tableData.map DisplayRow.dataRow

/-! Concrete inputs used by the scenario witnesses below. -/

/-- The spec's passing scenario values: `{name:"Al", email:"al@example.com",
birthDate: 2000-01-01, department:"engineering", isActive:true}`. -/
def goodValues : FormValues :=
  { name := some "Al"
    email := some "al@example.com"
    birthDate := some 946684800000
    department := some "engineering"
    isActive := some true }

/-- A second, distinct set of passing values (different name). -/
def goodValuesB : FormValues :=
  { goodValues with name := some "Bobby" }

/-- The spec's failing scenario values: `{name:"A", email:"bad",
birthDate: undefined, department: undefined}`. -/
def badValues : FormValues :=
  { name := some "A"
    email := some "bad"
    birthDate := none
    department := none
    isActive := none }

/-- The error mapping the failing scenario produces. -/
def badErrors : FieldErrors :=
  { name := some "Name must be at least 2 characters."
    email := some "Please enter a valid email address."
    birthDate := some "A birth date is required."
    department := some "Please select a department." }

/-- A state whose form currently holds the passing scenario values. -/
def goodState : AppState :=
  { tableData := [], formValues := goodValues, formErrors := noErrors }

/-- A state whose form currently holds the failing scenario values. -/
def badState : AppState :=
  { tableData := [], formValues := badValues, formErrors := noErrors }

/-- Passing values whose birth date (1899-12-31T23:59:59.999Z) lies in
the range the calendar control disables. -/
def earlyBirthValues : FormValues :=
  { goodValues with birthDate := some (date1900 - 1) }

/-- A state whose form holds `earlyBirthValues`. -/
def earlyBirthState : AppState :=
  { tableData := [], formValues := earlyBirthValues, formErrors := noErrors }

/-! Theorems. -/

/-- C1 counterexample: the department validator accepts the string
"astrology" even though it is not in the option set offered by the
Select UI, so "no department error iff the value is one of the
declared option set" is false on the code. -/
theorem department_outside_options_passes :
    validateDepartment (some "astrology") = none
    ∧ "astrology" ∉ departmentOptions := by
  decide

/-- C1 (amended): the schema checks only presence of the department
field — an unset department fails with "Please select a department.",
any set string (in particular every member of the UI option set)
passes; membership in {engineering, marketing, sales, hr, finance} is
enforced only by the Select UI, not by validation. -/
theorem department_validation_presence_only :
    validateDepartment none = some "Please select a department."
    ∧ (∀ s : String, validateDepartment (some s) = none)
    ∧ (departmentOptions.all fun s => (validateDepartment (some s)).isNone) = true :=
  ⟨rfl, fun _ => rfl, rfl⟩

/-- C3 counterexample: the checkbox wiring passes the emitted value to
the field store unchanged, so an `indeterminate` emission is stored as
`indeterminate`, which is not the plain boolean `false`. -/
theorem indeterminate_stored_as_indeterminate :
    checkboxOnCheckedChange CheckedState.indeterminate = CheckedState.indeterminate
    ∧ CheckedState.indeterminate ≠ CheckedState.isBool false := by
  decide

/-- C3 (amended): the `isActive` checkbox handler
(`onCheckedChange={field.onChange}`) stores the control's emitted
tri-state value unchanged; no normalization of `indeterminate` to
`false` occurs anywhere in the pipeline. -/
theorem checkbox_change_passthrough (emitted : CheckedState) :
    checkboxOnCheckedChange emitted = emitted := rfl

/-- C9: validation is a pure, deterministic function of the raw form
values — in this embedding `validate` takes nothing but the
`FormValues` (the schema is a fixed constant), so two calls on the
same values yield identical results. -/
theorem validate_deterministic (v : FormValues) : validate v = validate v := rfl

/-- C8: the table body projection renders exactly one placeholder row
(carrying the explanatory text) for the empty store, and one data row
per record, in store order, for a non-empty store; it is a pure
projection and does not change the store. -/
theorem table_body_rendering :
    renderTableBody [] = [DisplayRow.placeholderRow emptyTableMessage]
    ∧ ∀ tableData : List TableData, tableData ≠ [] →
        renderTableBody tableData = tableData.map DisplayRow.dataRow := by
  refine ⟨rfl, ?_⟩
  intro td h
  unfold renderTableBody
  rw [if_neg]
  simpa using h

/-- C8 witness: a concrete one-record store renders exactly its one
data row. -/
theorem table_body_rendering_witness :
    renderTableBody [mkEntry (parsedData goodValues) 946684800000]
      = [mkEntry (parsedData goodValues) 946684800000].map DisplayRow.dataRow :=
  table_body_rendering.2 [mkEntry (parsedData goodValues) 946684800000] (by simp)

/-- Helper: a `Nat` rendered in decimal (`Nat.repr`, hence `toString`)
is never the empty string, because `Nat.toDigitsCore` with positive
fuel always emits at least one digit. -/
theorem toDigitsCore_ne_nil_of_ne_nil (b : Nat) :
    ∀ (fuel n : Nat) (ds : List Char), ds ≠ [] → Nat.toDigitsCore b fuel n ds ≠ []
  | 0, _, _, h => h
  | fuel + 1, n, ds, h => by
    simp only [Nat.toDigitsCore]
    split
    · simp
    · exact toDigitsCore_ne_nil_of_ne_nil b fuel (n / b) _ (by simp)

/-- Helper: with positive fuel the digit accumulator is nonempty. -/
theorem toDigitsCore_ne_nil (b fuel n : Nat) (ds : List Char) :
    Nat.toDigitsCore b (fuel + 1) n ds ≠ [] := by
  simp only [Nat.toDigitsCore]
  split
  · simp
  · exact toDigitsCore_ne_nil_of_ne_nil b fuel (n / b) _ (by simp)

/-- Helper: the decimal rendering of a natural number is nonempty. -/
theorem natRepr_ne_empty (n : Nat) : Nat.repr n ≠ "" := by
  intro h
  exact toDigitsCore_ne_nil 10 n n [] (congrArg String.data h)

/-- C4: when every field of the current form values passes its check,
submitting appends exactly one record to the table, whose form fields
equal the validated input fields and which additionally carries the
generated (non-empty) id and the capture-time `createdAt` string. -/
theorem valid_submit_appends_record (s : AppState) (now : Nat)
    (hn : validateName s.formValues.name = none)
    (he : validateEmail s.formValues.email = none)
    (hb : validateBirthDate s.formValues.birthDate = none)
    (hd : validateDepartment s.formValues.department = none) :
    validate s.formValues = .valid (parsedData s.formValues)
    ∧ (handleSubmit s now).tableData
        = s.tableData ++ [mkEntry (parsedData s.formValues) now]
    ∧ s.formValues.name = some (parsedData s.formValues).name
    ∧ s.formValues.email = some (parsedData s.formValues).email
    ∧ s.formValues.birthDate = some (parsedData s.formValues).birthDate
    ∧ s.formValues.department = some (parsedData s.formValues).department
    ∧ (parsedData s.formValues).isActive = s.formValues.isActive.getD false
    ∧ (mkEntry (parsedData s.formValues) now).toFormData = parsedData s.formValues
    ∧ (mkEntry (parsedData s.formValues) now).id ≠ ""
    ∧ (mkEntry (parsedData s.formValues) now).createdAt = toISOString now := by
  obtain ⟨nm, hnm⟩ : ∃ x, s.formValues.name = some x := by
    cases h : s.formValues.name with
    | none => rw [h] at hn; simp [validateName] at hn
    | some x => exact ⟨x, rfl⟩
  obtain ⟨em, hem⟩ : ∃ x, s.formValues.email = some x := by
    cases h : s.formValues.email with
    | none => rw [h] at he; simp [validateEmail] at he
    | some x => exact ⟨x, rfl⟩
  obtain ⟨bd, hbd⟩ : ∃ x, s.formValues.birthDate = some x := by
    cases h : s.formValues.birthDate with
    | none => rw [h] at hb; simp [validateBirthDate] at hb
    | some x => exact ⟨x, rfl⟩
  obtain ⟨dep, hdep⟩ : ∃ x, s.formValues.department = some x := by
    cases h : s.formValues.department with
    | none => rw [h] at hd; simp [validateDepartment] at hd
    | some x => exact ⟨x, rfl⟩
  have hfe : hasErrors (fieldErrors s.formValues) = false := by
    simp [hasErrors, fieldErrors, hn, he, hb, hd]
  have hval : validate s.formValues = .valid (parsedData s.formValues) := by
    simp [validate, hfe]
  refine ⟨hval, ?_, ?_, ?_, ?_, ?_, rfl, rfl, natRepr_ne_empty now, rfl⟩
  · simp only [handleSubmit, hval, onSubmit]
  · simp [parsedData, hnm]
  · simp [parsedData, hem]
  · simp [parsedData, hbd]
  · simp [parsedData, hdep]

/-- C4 witness: the spec's passing scenario, submitted at
2000-01-01T00:00:00Z. -/
theorem valid_submit_appends_record_witness :
    validate goodState.formValues = .valid (parsedData goodState.formValues)
    ∧ (handleSubmit goodState 946684800000).tableData
        = goodState.tableData ++ [mkEntry (parsedData goodState.formValues) 946684800000]
    ∧ goodState.formValues.name = some (parsedData goodState.formValues).name
    ∧ goodState.formValues.email = some (parsedData goodState.formValues).email
    ∧ goodState.formValues.birthDate = some (parsedData goodState.formValues).birthDate
    ∧ goodState.formValues.department = some (parsedData goodState.formValues).department
    ∧ (parsedData goodState.formValues).isActive = goodState.formValues.isActive.getD false
    ∧ (mkEntry (parsedData goodState.formValues) 946684800000).toFormData
        = parsedData goodState.formValues
    ∧ (mkEntry (parsedData goodState.formValues) 946684800000).id ≠ ""
    ∧ (mkEntry (parsedData goodState.formValues) 946684800000).createdAt
        = toISOString 946684800000 :=
  valid_submit_appends_record goodState 946684800000
    (by decide) (by decide) (by decide) (by decide)

/-- C5: when validation of the current form values fails, submitting
only attaches the error mapping to the form state: the table is not
mutated and the form retains the current, unreset values. -/
theorem invalid_submit_preserves_state (s : AppState) (now : Nat) (e : FieldErrors)
    (h : validate s.formValues = .invalid e) :
    handleSubmit s now = { s with formErrors := e }
    ∧ (handleSubmit s now).tableData = s.tableData
    ∧ (handleSubmit s now).formValues = s.formValues := by
  have h1 : handleSubmit s now = { s with formErrors := e } := by
    simp only [handleSubmit, h]
  exact ⟨h1, by rw [h1], by rw [h1]⟩

/-- C5 witness: the spec's failing scenario mutates neither the table
nor the form values. -/
theorem invalid_submit_preserves_state_witness :
    handleSubmit badState 1000 = { badState with formErrors := badErrors }
    ∧ (handleSubmit badState 1000).tableData = badState.tableData
    ∧ (handleSubmit badState 1000).formValues = badState.formValues :=
  invalid_submit_preserves_state badState 1000 badErrors (by decide)

/-- C6: the error mapping of a failed validation holds, independently
for each field, exactly the outcome of that field's own check — every
offending field is keyed and no other; and on the spec's failing
scenario all four of name, email, birthDate and department are keyed. -/
theorem validation_aggregates_all_errors (v : FormValues) (e : FieldErrors)
    (h : validate v = .invalid e) :
    (e.name = validateName v.name
     ∧ e.email = validateEmail v.email
     ∧ e.birthDate = validateBirthDate v.birthDate
     ∧ e.department = validateDepartment v.department)
    ∧ validate badValues = .invalid badErrors := by
  constructor
  · have he : e = fieldErrors v := by
      unfold validate at h
      split at h
      · exact (ValidationResult.invalid.inj h).symm
      · exact absurd h (by simp)
    subst he
    exact ⟨rfl, rfl, rfl, rfl⟩
  · decide

/-- C6 witness: the failing scenario instantiates the aggregation
theorem. -/
theorem validation_aggregates_all_errors_witness :
    (badErrors.name = validateName badValues.name
     ∧ badErrors.email = validateEmail badValues.email
     ∧ badErrors.birthDate = validateBirthDate badValues.birthDate
     ∧ badErrors.department = validateDepartment badValues.department)
    ∧ validate badValues = .invalid badErrors :=
  validation_aggregates_all_errors badValues badErrors (by decide)

/-- C7: after a successful submit the form state equals the declared
defaults exactly (`form.reset()`): name and email back to `""`,
isActive back to `false`, birthDate and department back to their
declared (absent) defaults, and all errors cleared. -/
theorem successful_submit_resets_form (s : AppState) (now : Nat) (d : FormData)
    (h : validate s.formValues = .valid d) :
    (handleSubmit s now).formValues = defaultValues
    ∧ (handleSubmit s now).formErrors = noErrors := by
  have h1 : handleSubmit s now = onSubmit s d now := by
    simp only [handleSubmit, h]
  rw [h1]
  exact ⟨rfl, rfl⟩

/-- C7 witness: the passing scenario resets the form to the declared
defaults. -/
theorem successful_submit_resets_form_witness :
    (handleSubmit goodState 946684800000).formValues = defaultValues
    ∧ (handleSubmit goodState 946684800000).formErrors = noErrors :=
  successful_submit_resets_form goodState 946684800000
    (parsedData goodValues) (by decide)

/-- C10: the birth-date check accepts every well-formed date — the
validator imposes no range — so a form whose other fields pass commits
a record carrying that date; the range `1900-01-01 ≤ d ≤ now` is
enforced only by the calendar control's `disabled` predicate, which
for instance rejects 1899-12-31T23:59:59.999Z even though validation
accepts it. -/
theorem birthdate_range_unrestricted (s : AppState) (t now : Nat) (d : Int)
    (fd : FormData)
    (hb : s.formValues.birthDate = some d)
    (hv : validate s.formValues = .valid fd) :
    validateBirthDate (some d) = none
    ∧ fd.birthDate = d
    ∧ (handleSubmit s t).tableData = s.tableData ++ [mkEntry fd t]
    ∧ calendarDisabled now (date1900 - 1) = true
    ∧ validateBirthDate (some (date1900 - 1)) = none := by
  have hfd : fd = parsedData s.formValues := by
    unfold validate at hv
    split at hv
    · exact absurd hv (by simp)
    · exact (ValidationResult.valid.inj hv).symm
  refine ⟨rfl, ?_, ?_, ?_, rfl⟩
  · rw [hfd]
    simp [parsedData, hb]
  · simp only [handleSubmit, hv, onSubmit]
  · simp only [calendarDisabled, Bool.or_eq_true, decide_eq_true_eq]
    right
    omega

/-- C10 witness: a birth date one millisecond before 1900-01-01 —
disabled in the calendar — validates and is committed on submit. -/
theorem birthdate_range_unrestricted_witness :
    validateBirthDate (some (date1900 - 1)) = none
    ∧ (parsedData earlyBirthValues).birthDate = date1900 - 1
    ∧ (handleSubmit earlyBirthState 946684800000).tableData
        = earlyBirthState.tableData
          ++ [mkEntry (parsedData earlyBirthValues) 946684800000]
    ∧ calendarDisabled 946684800000 (date1900 - 1) = true
    ∧ validateBirthDate (some (date1900 - 1)) = none :=
  birthdate_range_unrestricted earlyBirthState 946684800000 946684800000
    (date1900 - 1) (parsedData earlyBirthValues) (by decide) (by decide)

/-! Injectivity of the decimal rendering used by the id generator
(`Date.now().toString()`), proved by exhibiting a decoder for the
digit list produced by `Nat.toDigitsCore`. -/

/-- Numeric value of a decimal digit character. -/
def digitVal (c : Char) : Nat := c.toNat - 48

/-- Decode a most-significant-first decimal digit list. -/
def ofDigits (l : List Char) : Nat :=
  l.foldl (fun a c => 10 * a + digitVal c) 0

/-- Helper: decoding after appending one trailing digit. -/
theorem ofDigits_concat (l : List Char) (c : Char) :
    ofDigits (l ++ [c]) = 10 * ofDigits l + digitVal c := by
  simp [ofDigits, List.foldl_append]

/-- Helper: the digit characters of values below ten decode back. -/
theorem digitVal_digitChar : ∀ m : Nat, m < 10 → digitVal (Nat.digitChar m) = m := by
  decide

/-- Helper: the digit accumulator factors through an append. -/
theorem toDigitsCore_append (b : Nat) :
    ∀ (fuel n : Nat) (ds : List Char),
      Nat.toDigitsCore b fuel n ds = Nat.toDigitsCore b fuel n [] ++ ds
  | 0, _, _ => rfl
  | fuel + 1, n, ds => by
    simp only [Nat.toDigitsCore]
    split
    · rfl
    · rw [toDigitsCore_append b fuel (n / b) (Nat.digitChar (n % b) :: ds),
        toDigitsCore_append b fuel (n / b) [Nat.digitChar (n % b)]]
      simp

/-- Helper: `ofDigits` inverts `Nat.toDigitsCore` in base ten when the
fuel exceeds the number. -/
theorem ofDigits_toDigitsCore :
    ∀ (fuel n : Nat), n < fuel → ofDigits (Nat.toDigitsCore 10 fuel n []) = n
  | 0, n, h => absurd h (Nat.not_lt_zero n)
  | fuel + 1, n, h => by
    simp only [Nat.toDigitsCore]
    split
    case isTrue h0 =>
      have hlt : n < 10 := by omega
      have : ofDigits [Nat.digitChar (n % 10)] = digitVal (Nat.digitChar (n % 10)) := by
        simp [ofDigits]
      rw [this, Nat.mod_eq_of_lt hlt]
      exact digitVal_digitChar n hlt
    case isFalse h0 =>
      have hn : 0 < n := by
        rcases Nat.eq_zero_or_pos n with h | h
        · exact absurd (by simp [h]) h0
        · exact h
      have hdiv : n / 10 < fuel :=
        Nat.lt_of_lt_of_le (Nat.div_lt_self hn (by norm_num)) (Nat.lt_succ_iff.mp h)
      rw [toDigitsCore_append 10 fuel (n / 10) [Nat.digitChar (n % 10)],
        ofDigits_concat, ofDigits_toDigitsCore fuel (n / 10) hdiv,
        digitVal_digitChar (n % 10) (Nat.mod_lt n (by norm_num))]
      omega

/-- Helper: the decimal rendering of naturals is injective. -/
theorem natRepr_injective : Function.Injective Nat.repr := by
  intro m n h
  have hd : Nat.toDigits 10 m = Nat.toDigits 10 n := congrArg String.data h
  have hm := ofDigits_toDigitsCore (m + 1) m (Nat.lt_succ_self m)
  have hn := ofDigits_toDigitsCore (n + 1) n (Nat.lt_succ_self n)
  rw [← hm, ← hn]
  exact congrArg ofDigits hd

/-- Helper: the id generator is injective on clock readings. -/
theorem generateId_injective : Function.Injective generateId :=
  natRepr_injective

/-- Helper: across a session, the committed ids are the ids of the
successfully validated interactions, in order: each valid interaction
appends one entry whose id is `generateId` of its timestamp. -/
theorem foldl_tableData_map_id :
    ∀ (events : List (FormValues × Nat)) (s : AppState),
      ((events.foldl submitEvent s).tableData).map TableData.id
        = s.tableData.map TableData.id
          ++ ((events.filter fun ev => (commitOf ev).isSome).map fun ev => generateId ev.2)
  | [], s => by simp
  | ev :: evs, s => by
    rw [List.foldl_cons, foldl_tableData_map_id evs (submitEvent s ev)]
    cases h : validate ev.1 with
    | valid d =>
      simp [submitEvent, handleSubmit, onSubmit, commitOf, h, mkEntry,
        List.filter_cons]
    | invalid e =>
      simp [submitEvent, handleSubmit, commitOf, h, List.filter_cons]

/-- Helper: the session ids, characterized. -/
theorem sessionIds_characterization (events : List (FormValues × Nat)) :
    sessionIds events
      = ((events.filter fun ev => (commitOf ev).isSome).map fun ev => generateId ev.2) := by
  simpa [sessionIds, runSession, initialState] using
    foldl_tableData_map_id events initialState

/-- C2 counterexample: two distinct successful submissions (the
records differ in their name field) whose `Date.now()` readings fall
in the same millisecond receive the same generated id "1000", so ids
are not unique across the session. -/
theorem same_millisecond_id_collision :
    ((runSession [(goodValues, 1000), (goodValuesB, 1000)]).tableData).map TableData.id
      = ["1000", "1000"]
    ∧ ((runSession [(goodValues, 1000), (goodValuesB, 1000)]).tableData).map
        (fun r => r.toFormData.name) = ["Al", "Bobby"] := by
  constructor
  · rfl
  · rfl

/-- C2 (amended): the generated id is `Date.now().toString()`, so the
ids of the records committed in a session are pairwise distinct
whenever the clock readings of the submissions are pairwise distinct;
submissions within the same millisecond receive equal ids. -/
theorem session_ids_distinct_of_distinct_times (events : List (FormValues × Nat))
    (h : (events.map Prod.snd).Nodup) : (sessionIds events).Nodup := by
  rw [sessionIds_characterization]
  have h1 : ((events.filter fun ev => (commitOf ev).isSome).map Prod.snd).Nodup :=
    h.sublist ((List.filter_sublist events).map Prod.snd)
  have h2 : ((events.filter fun ev => (commitOf ev).isSome).map fun ev => generateId ev.2)
      = ((events.filter fun ev => (commitOf ev).isSome).map Prod.snd).map generateId := by
    simp [List.map_map, Function.comp]
  rw [h2]
  exact h1.map generateId_injective

/-- C2 witness: two submissions one second apart commit records with
distinct ids. -/
theorem session_ids_distinct_witness :
    ([(goodValues, 1000), (goodValuesB, 2000)].map Prod.snd).Nodup
    ∧ (sessionIds [(goodValues, 1000), (goodValuesB, 2000)]).Nodup :=
  ⟨by decide,
   session_ids_distinct_of_distinct_times
     [(goodValues, 1000), (goodValuesB, 2000)] (by decide)⟩

end ShadcnApp
